import Mathlib

/-!
Verification of the Tuwaiq drones command server (`wsl_drone_server.py`).

The server is a line-oriented TCP command handler that drives a MAVSDK
vehicle link.  We embed it shallowly:

* the shared mutable `state = {"flying": False}` dictionary becomes the
  `VehicleState` structure;
* each vehicle-link coroutine (`drone.action.arm()`, `drone.action.takeoff()`,
  `drone.action.land()`, `get_home`, `drone.mission.clear_mission()`,
  `drone.mission.upload_mission(...)`, `drone.mission.start_mission()`, the
  `drone.core.connection_state()` read in `status`) either returns normally or
  raises an exception carrying a message; an oracle `LinkOracle` fixes the
  outcome of each call, and the handler records which calls it performed in a
  trace of `LinkCall`s;
* one iteration of the `while True` loop in `handle_client` becomes
  `handleCommand`; the loop over incoming lines becomes `runSession`;
* the mission planner `build_square_mission` is embedded over `ℝ`
  (Python floats and `math.cos` become real numbers and `Real.cos`);
* the boot sequence of `main` (connect, `wait_connected`, `wait_health_ok`,
  `asyncio.start_server`) becomes `mainBoot` over explicit wait outcomes.
-/

/-- The shared vehicle state: `state = {"flying": False}` in `main`. -/
structure VehicleState where
  flying : Bool
deriving DecidableEq

/-- The commands distinguished by the `if`/`elif` chain in `handle_client`.
`unrecognized` is the final `else` branch. -/
inductive Cmd where
  | takeoff
  | mission
  | land
  | status
  | stop
  | unrecognized
deriving DecidableEq

/-- `line.decode().strip().lower()`: drop leading and trailing whitespace,
then lowercase every character. -/
def pyNormalize (line : String) : String :=
  String.mk
    ((((line.data.dropWhile Char.isWhitespace).reverse.dropWhile
        Char.isWhitespace).reverse).map Char.toLower)

/-- `cmd = line.decode().strip().lower()` followed by the `if`/`elif` chain:
`("takeoff", "take off")`, `"mission"`, `"land"`, `"status"`, `"stop"`,
anything else unrecognized. -/
def parseCmd (line : String) : Cmd :=
  let cmd := pyNormalize line
  if cmd = "takeoff" ∨ cmd = "take off" then Cmd.takeoff
  else if cmd = "mission" then Cmd.mission
  else if cmd = "land" then Cmd.land
  else if cmd = "status" then Cmd.status
  else if cmd = "stop" then Cmd.stop
  else Cmd.unrecognized

/-- One vehicle-link interaction performed by the handler. -/
inductive LinkCall where
  | arm
  | takeoffAction
  | landAction
  | getHome
  | clearMission
  | uploadMission
  | startMission
  | readConnectionState
deriving DecidableEq

/-- Outcome of every vehicle-link call the handler might perform.
`Except.error e` models the coroutine raising an exception whose string
rendering is `e` (the server replies `f"ERR {e}\n"`).  `getHomeR` carries the
home position `(latitude_deg, longitude_deg)` returned by `get_home`. -/
structure LinkOracle where
  armR : Except String Unit
  takeoffR : Except String Unit
  landR : Except String Unit
  getHomeR : Except String (Rat × Rat)
  clearR : Except String Unit
  uploadR : Except String Unit
  startR : Except String Unit
  connR : Except String Bool

/-- Result of processing one command line: the reply lines written via
`safe_write`, the vehicle state afterwards, the vehicle-link calls performed
(in order), and whether the session loop `break`s (the `stop` branch). -/
structure StepResult where
  replies : List String
  state : VehicleState
  calls : List LinkCall
  closeSession : Bool
deriving DecidableEq

/-- `f"ERR {e}\n"`. -/
def errReply (e : String) : String := "ERR " ++ e ++ "\n"

/-- Python renders a `bool` inside an f-string as `str(True) = "True"` /
`str(False) = "False"`. -/
def pyStrBool (b : Bool) : String := if b then "True" else "False"

/-- The upload-and-start tail of the `mission` branch, performed after the
best-effort `clear_mission` (whose attempt is already on the trace):
`upload_mission(plan)`, `asyncio.sleep(0.5)`, `start_mission()`, then
`OK mission started`. -/
def missionUploadStart (st : VehicleState) (o : LinkOracle) : StepResult :=
  match o.uploadR with
  | Except.error e =>
      ⟨[errReply e], st, [LinkCall.getHome, LinkCall.clearMission, LinkCall.uploadMission], false⟩
  | Except.ok _ =>
      match o.startR with
      | Except.error e =>
          ⟨[errReply e], st,
            [LinkCall.getHome, LinkCall.clearMission, LinkCall.uploadMission,
              LinkCall.startMission], false⟩
      | Except.ok _ =>
          ⟨["OK mission started\n"], st,
            [LinkCall.getHome, LinkCall.clearMission, LinkCall.uploadMission,
              LinkCall.startMission], false⟩

/-- One iteration of the `while True` body of `handle_client`, given the
parsed command, the current shared state, and the link-call outcomes.
`asyncio.sleep` calls are pure delays with no modelled effect.  In the
`mission` branch the plan `build_square_mission(home.latitude_deg,
home.longitude_deg)` is a pure computation, not a link call. -/
def handleCommand (cmd : Cmd) (st : VehicleState) (o : LinkOracle) : StepResult :=
  match cmd with
  | Cmd.takeoff =>
      match o.armR with
      | Except.error e => ⟨[errReply e], st, [LinkCall.arm], false⟩
      | Except.ok _ =>
          match o.takeoffR with
          | Except.error e =>
              ⟨[errReply e], st, [LinkCall.arm, LinkCall.takeoffAction], false⟩
          | Except.ok _ =>
              ⟨["OK takeoff\n"], ⟨true⟩, [LinkCall.arm, LinkCall.takeoffAction], false⟩
  | Cmd.mission =>
      if st.flying = false then
        ⟨["ERR not flying\n"], st, [], false⟩
      else
        match o.getHomeR with
        | Except.error e => ⟨[errReply e], st, [LinkCall.getHome], false⟩
        | Except.ok _home =>
            -- try: clear_mission(); sleep(0.3)  except Exception: pass
            match o.clearR with
            | Except.ok _ => missionUploadStart st o
            | Except.error _ => missionUploadStart st o
  | Cmd.land =>
      match o.landR with
      | Except.error e => ⟨[errReply e], st, [LinkCall.landAction], false⟩
      | Except.ok _ => ⟨["OK land\n"], ⟨false⟩, [LinkCall.landAction], false⟩
  | Cmd.status =>
      match o.connR with
      | Except.error e => ⟨[errReply e], st, [LinkCall.readConnectionState], false⟩
      | Except.ok conn =>
          ⟨["OK connected=" ++ pyStrBool conn ++ " flying=" ++ pyStrBool st.flying ++ "\n"],
            st, [LinkCall.readConnectionState], false⟩
  | Cmd.stop => ⟨["OK stop\n"], st, [], true⟩
  | Cmd.unrecognized => ⟨["IGNORED\n"], st, [], false⟩

/-- The read loop of `handle_client`: process lines in order, threading the
shared state, stopping at end of input (peer closed) or when a command closes
the session (`stop`).  `o n` gives the link outcomes for the `n`-th processed
command. -/
def runSession (st : VehicleState) (o : Nat → LinkOracle) : List String → List String
  | [] => []
  | line :: rest =>
      let r := handleCommand (parseCmd line) st (o 0)
      if r.closeSession then r.replies
      else r.replies ++ runSession r.state (fun n => o (n + 1)) rest

/-- `handle_client`: greeting `OK connected to server\n` on connect, then the
read loop. -/
def handle_client (st : VehicleState) (o : Nat → LinkOracle) (lines : List String) :
    List String :=
  "OK connected to server\n" :: runSession st o lines

/-- `state = {"flying": False}` at the top of `main`. -/
def mainInitialState : VehicleState := ⟨false⟩

/-- An oracle on which every link call succeeds; home fix at (47.4, 8.5). -/
def allOkOracle : LinkOracle :=
  ⟨Except.ok (), Except.ok (), Except.ok (), Except.ok (474/10, 85/10),
    Except.ok (), Except.ok (), Except.ok (), Except.ok true⟩

/-! ## Mission planner (`build_square_mission`)

Python floats become real numbers, `math.cos` becomes `Real.cos`, and
`math.radians(lat)` becomes `lat * π / 180`.  Of the 14 `MissionItem`
constructor arguments only the first five vary between waypoints; the
remaining ones are the constants `float("nan")`, `CameraAction.NONE` and
`VehicleAction.NONE`, identical on every item, and are omitted from the
embedded structure. -/

/-- The varying fields of a MAVSDK `MissionItem`:
`(latitude_deg, longitude_deg, relative_altitude_m, speed_m_s, is_fly_through)`. -/
structure MissionItem where
  latitudeDeg : ℝ
  longitudeDeg : ℝ
  relativeAltitudeM : ℝ
  speedMS : ℝ
  isFlyThrough : Bool

/-- A MAVSDK `MissionPlan`: the ordered list of mission items. -/
structure MissionPlan where
  missionItems : List MissionItem

/-- `dlat = side_m / 1.11e5`. -/
noncomputable def dlatOf (side_m : ℝ) : ℝ := side_m / 111000

/-- `dlon = side_m / (1.11e5 * max(0.2, abs(math.cos(math.radians(lat)))))`. -/
noncomputable def dlonOf (lat side_m : ℝ) : ℝ :=
  side_m / (111000 * max 0.2 |Real.cos (lat * Real.pi / 180)|)

/-- `build_square_mission(lat, lon, alt=5.0, side_m=10.0, speed_m_s=5.0)`:
four waypoints `(lat+dlat, lon)`, `(lat+dlat, lon+dlon)`, `(lat, lon+dlon)`,
`(lat, lon)`, all at altitude `alt`, speed `speed_m_s`, fly-through `True`. -/
noncomputable def build_square_mission (lat lon : ℝ) (alt : ℝ := 5) (side_m : ℝ := 10)
    (speed_m_s : ℝ := 5) : MissionPlan :=
  let dlat := dlatOf side_m
  let dlon := dlonOf lat side_m
  ⟨[⟨lat + dlat, lon, alt, speed_m_s, true⟩,
    ⟨lat + dlat, lon + dlon, alt, speed_m_s, true⟩,
    ⟨lat, lon + dlon, alt, speed_m_s, true⟩,
    ⟨lat, lon, alt, speed_m_s, true⟩]⟩

/-! ## Boot sequence (`main`) -/

/-- Outcome of an `asyncio.wait_for` around a readiness wait: either
`asyncio.TimeoutError`, or the value the inner coroutine resolved with. -/
inductive WaitOutcome (α : Type) where
  | timeout
  | resolved (val : α)

/-- Observable effects of `main`'s boot sequence. -/
structure BootTrace where
  loggedConnTimeout : Bool
  loggedHealthWarning : Bool
  serverStarted : Bool
deriving DecidableEq

/-- The boot sequence of `main` after `drone.connect(...)`:
`wait_connected` under a 20 s `wait_for` — on `TimeoutError`, log and
`return` (so `asyncio.start_server` is never reached); then `wait_health_ok`
under a 45 s `wait_for` — on `TimeoutError`, log a warning and fall through;
then `asyncio.start_server(...)` and `serve_forever`. -/
def mainBoot (connW : WaitOutcome Bool) (healthW : WaitOutcome (Option Unit)) :
    BootTrace :=
  match connW with
  | WaitOutcome.timeout => ⟨true, false, false⟩
  | WaitOutcome.resolved _ =>
      match healthW with
      | WaitOutcome.timeout => ⟨false, true, true⟩
      | WaitOutcome.resolved _ => ⟨false, false, true⟩

/-- An oracle whose `arm` call raises `"arm failed"`; all other calls succeed. -/
def armFailOracle : LinkOracle :=
  ⟨Except.error "arm failed", Except.ok (), Except.ok (), Except.ok (474/10, 85/10),
    Except.ok (), Except.ok (), Except.ok (), Except.ok true⟩

/-- Helper: the `mission` branch never writes the shared state, on any
combination of link-call outcomes. -/
theorem handleCommand_mission_state (st : VehicleState) (o : LinkOracle) :
    (handleCommand Cmd.mission st o).state = st := by
  rcases o with ⟨a, t, l, g, c, u, s, cn⟩
  rcases st with ⟨f⟩
  cases f <;> cases g <;> cases c <;> cases u <;> cases s <;>
    simp [handleCommand, missionUploadStart]

/-- C1: a `mission` command received while `flying = false` replies exactly
`ERR not flying`, leaves the state unchanged, and performs zero vehicle-link
calls (no home fetch, no clear, no upload, no start). -/
theorem mission_requires_flying (st : VehicleState) (o : LinkOracle)
    (h : st.flying = false) :
    handleCommand Cmd.mission st o = ⟨["ERR not flying\n"], st, [], false⟩ := by
  simp [handleCommand, h]

/-- Witness for C1 at the concrete grounded state with an all-success link. -/
theorem mission_requires_flying_witness :
    handleCommand Cmd.mission ⟨false⟩ allOkOracle =
      ⟨["ERR not flying\n"], ⟨false⟩, [], false⟩ :=
  mission_requires_flying ⟨false⟩ allOkOracle rfl

/-- C10: the `mission` handler never writes the `flying` flag: whatever the
outcome of its link calls, the state after the command equals the state
before. -/
theorem mission_frame_state (st : VehicleState) (o : LinkOracle) :
    (handleCommand Cmd.mission st o).state = st :=
  handleCommand_mission_state st o

/-- C9: the pre-upload `clear_mission` is best-effort: an error raised by the
clear call is swallowed, and the command behaves exactly (same replies, same
state, same call trace) as if the clear had succeeded. -/
theorem mission_clear_best_effort (st : VehicleState) (o : LinkOracle) (e : String) :
    handleCommand Cmd.mission st { o with clearR := Except.error e } =
      handleCommand Cmd.mission st { o with clearR := Except.ok () } := by
  rcases o with ⟨a, t, l, g, c, u, s, cn⟩
  rcases st with ⟨f⟩
  cases f <;> cases g <;> cases u <;> cases s <;>
    simp [handleCommand, missionUploadStart]

/-- C6: if the `arm` or `takeoff` link call fails during `takeoff`, or the
`land` link call fails during `land`, the server replies `ERR <cause>` with
the error's message and the shared state is left unchanged. -/
theorem takeoff_land_failure_atomic (st : VehicleState) (o : LinkOracle) (e : String) :
    (o.armR = Except.error e →
      handleCommand Cmd.takeoff st o = ⟨[errReply e], st, [LinkCall.arm], false⟩) ∧
    (o.armR = Except.ok () → o.takeoffR = Except.error e →
      handleCommand Cmd.takeoff st o =
        ⟨[errReply e], st, [LinkCall.arm, LinkCall.takeoffAction], false⟩) ∧
    (o.landR = Except.error e →
      handleCommand Cmd.land st o = ⟨[errReply e], st, [LinkCall.landAction], false⟩) :=
  ⟨fun h1 => by simp [handleCommand, h1],
   fun h1 h2 => by simp [handleCommand, h1, h2],
   fun h1 => by simp [handleCommand, h1]⟩

/-- Witness for C6: a concrete failing `arm` call. -/
theorem takeoff_land_failure_atomic_witness :
    handleCommand Cmd.takeoff ⟨false⟩ armFailOracle =
      ⟨[errReply "arm failed"], ⟨false⟩, [LinkCall.arm], false⟩ :=
  (takeoff_land_failure_atomic ⟨false⟩ armFailOracle "arm failed").1 rfl

/-- C5: the shared state starts grounded (`flying = false` in `main`), and a
command changes the `flying` flag only when it is `takeoff` with both the arm
and the takeoff link calls succeeding (then the flag becomes `true`), or
`land` with the land link call succeeding (then the flag becomes `false`); no
other command writes the flag. -/
theorem flying_single_writer :
    mainInitialState.flying = false ∧
    ∀ (cmd : Cmd) (st : VehicleState) (o : LinkOracle),
      (handleCommand cmd st o).state.flying ≠ st.flying →
        (cmd = Cmd.takeoff ∧ o.armR = Except.ok () ∧ o.takeoffR = Except.ok () ∧
          (handleCommand cmd st o).state.flying = true) ∨
        (cmd = Cmd.land ∧ o.landR = Except.ok () ∧
          (handleCommand cmd st o).state.flying = false) := by
  refine ⟨rfl, fun cmd st o h => ?_⟩
  rcases o with ⟨a, t, l, g, c, u, s, cn⟩
  cases cmd with
  | takeoff =>
      cases a with
      | error e => exact absurd rfl h
      | ok pu =>
          cases t with
          | error e => exact absurd rfl h
          | ok pt => exact Or.inl ⟨rfl, by cases pu; rfl, by cases pt; rfl, rfl⟩
  | mission =>
      exact absurd
        (congrArg VehicleState.flying
          (handleCommand_mission_state st ⟨a, t, l, g, c, u, s, cn⟩)) h
  | land =>
      cases l with
      | error e => exact absurd rfl h
      | ok pl => exact Or.inr ⟨rfl, by cases pl; rfl, rfl⟩
  | status =>
      cases cn with
      | error e => exact absurd rfl h
      | ok b => exact absurd rfl h
  | stop => exact absurd rfl h
  | unrecognized => exact absurd rfl h

/-- Witness for C5: the transition hypothesis holds concretely for a
successful `land` from the flying state. -/
theorem flying_single_writer_witness :
    (Cmd.land = Cmd.takeoff ∧ allOkOracle.armR = Except.ok () ∧
      allOkOracle.takeoffR = Except.ok () ∧
      (handleCommand Cmd.land ⟨true⟩ allOkOracle).state.flying = true) ∨
    (Cmd.land = Cmd.land ∧ allOkOracle.landR = Except.ok () ∧
      (handleCommand Cmd.land ⟨true⟩ allOkOracle).state.flying = false) :=
  flying_single_writer.2 Cmd.land ⟨true⟩ allOkOracle (by decide)

/-- C4 counterexample: the `status` reply renders the Python booleans as
`True`/`False`, so at a concrete grounded state with a connected link the
reply line is `OK connected=True flying=False`, not the lowercase
`OK connected=true flying=false` the claim states. -/
theorem status_reply_lowercase_counterexample :
    (handleCommand Cmd.status ⟨false⟩ allOkOracle).replies =
        ["OK connected=True flying=False\n"] ∧
    (handleCommand Cmd.status ⟨false⟩ allOkOracle).replies ≠
        ["OK connected=true flying=false\n"] :=
  ⟨by decide, by decide⟩

/-- C4 amended: when the link read succeeds, the `status` reply line is
exactly `OK connected=<c> flying=<f>` where `<c>` and `<f>` are the Python
capitalized tokens `True`/`False` for the link connection flag and the shared
flying flag. -/
theorem status_reply_format (st : VehicleState) (o : LinkOracle) (conn : Bool)
    (h : o.connR = Except.ok conn) :
    (handleCommand Cmd.status st o).replies =
      ["OK connected=" ++ pyStrBool conn ++ " flying=" ++ pyStrBool st.flying ++ "\n"] := by
  rcases o with ⟨a, t, l, g, c, u, s, cn⟩
  cases cn with
  | error e => simp at h
  | ok b => cases h; rfl

/-- Witness for C4 (amended) at a concrete grounded state. -/
theorem status_reply_format_witness :
    (handleCommand Cmd.status ⟨false⟩ allOkOracle).replies =
      ["OK connected=" ++ pyStrBool true ++ " flying=" ++ pyStrBool false ++ "\n"] :=
  status_reply_format ⟨false⟩ allOkOracle true rfl

/-- C2: `build_square_mission` returns exactly 4 waypoints; all carry the
given altitude, the given target speed, and the fly-through flag `true`; the
corners are the closed square `(lat+dlat, lon) → (lat+dlat, lon+dlon) →
(lat, lon+dlon) → (lat, lon)` with latitude delta `side_m / 111000` and the
longitude delta `dlonOf`, the last corner being the origin itself.  Purity
and determinism hold because the embedding is a function of its inputs. -/
theorem build_square_mission_spec (lat lon alt side speed : ℝ) :
    (build_square_mission lat lon alt side speed).missionItems.length = 4 ∧
    (∀ item ∈ (build_square_mission lat lon alt side speed).missionItems,
      item.relativeAltitudeM = alt ∧ item.speedMS = speed ∧
        item.isFlyThrough = true) ∧
    ((build_square_mission lat lon alt side speed).missionItems.map
        (fun item => (item.latitudeDeg, item.longitudeDeg))) =
      [(lat + side / 111000, lon),
       (lat + side / 111000, lon + dlonOf lat side),
       (lat, lon + dlonOf lat side),
       (lat, lon)] := by
  refine ⟨rfl, ?_, ?_⟩
  · intro item hitem
    simp only [build_square_mission, List.mem_cons, List.not_mem_nil, or_false] at hitem
    rcases hitem with h | h | h | h <;> subst h <;> exact ⟨rfl, rfl, rfl⟩
  · simp [build_square_mission, dlatOf]

/-- Witness for C2 at the origin `(0, 0)` with the default parameters: the
plan has 4 items and the origin corner carries altitude 5, speed 5,
fly-through `true`. -/
theorem build_square_mission_spec_witness :
    (build_square_mission 0 0 5 10 5).missionItems.length = 4 ∧
    ((⟨0, 0, 5, 5, true⟩ : MissionItem).relativeAltitudeM = 5 ∧
      (⟨0, 0, 5, 5, true⟩ : MissionItem).speedMS = 5 ∧
      (⟨0, 0, 5, 5, true⟩ : MissionItem).isFlyThrough = true) :=
  ⟨(build_square_mission_spec 0 0 5 10 5).1,
   (build_square_mission_spec 0 0 5 10 5).2.1 ⟨0, 0, 5, 5, true⟩
     (by simp [build_square_mission])⟩

/-- C3: for any origin latitude in [-90, 90] the longitude-delta divisor
`111000 * max 0.2 |cos (radians lat)|` is at least `0.2 * 111000` and in
particular nonzero, so the longitude deltas appearing in the plan are
well-defined real numbers (no division by zero; in the real-number model no
NaN or infinity can arise). -/
theorem lon_divisor_bounded (lat lon alt side speed : ℝ)
    (h1 : -90 ≤ lat) (h2 : lat ≤ 90) :
    0.2 * 111000 ≤ 111000 * max 0.2 |Real.cos (lat * Real.pi / 180)| ∧
    111000 * max 0.2 |Real.cos (lat * Real.pi / 180)| ≠ 0 ∧
    ((build_square_mission lat lon alt side speed).missionItems.map
        MissionItem.longitudeDeg) =
      [lon,
       lon + side / (111000 * max 0.2 |Real.cos (lat * Real.pi / 180)|),
       lon + side / (111000 * max 0.2 |Real.cos (lat * Real.pi / 180)|),
       lon] := by
  have hmax : (0.2 : ℝ) ≤ max 0.2 |Real.cos (lat * Real.pi / 180)| :=
    le_max_left _ _
  have hpos : (0 : ℝ) < 111000 * max 0.2 |Real.cos (lat * Real.pi / 180)| :=
    mul_pos (by norm_num) (lt_of_lt_of_le (by norm_num) hmax)
  refine ⟨?_, hpos.ne', ?_⟩
  · calc (0.2 : ℝ) * 111000 = 111000 * 0.2 := by ring
      _ ≤ 111000 * max 0.2 |Real.cos (lat * Real.pi / 180)| :=
        mul_le_mul_of_nonneg_left hmax (by norm_num)
  · simp [build_square_mission, dlonOf]

/-- Witness for C3 at latitude 0 (equator), origin longitude 0, defaults. -/
theorem lon_divisor_bounded_witness :
    0.2 * 111000 ≤ 111000 * max 0.2 |Real.cos ((0 : ℝ) * Real.pi / 180)| ∧
    111000 * max 0.2 |Real.cos ((0 : ℝ) * Real.pi / 180)| ≠ 0 ∧
    ((build_square_mission 0 0 5 10 5).missionItems.map
        MissionItem.longitudeDeg) =
      [0,
       0 + 10 / (111000 * max 0.2 |Real.cos ((0 : ℝ) * Real.pi / 180)|),
       0 + 10 / (111000 * max 0.2 |Real.cos ((0 : ℝ) * Real.pi / 180)|),
       0] :=
  lon_divisor_bounded 0 0 5 10 5 (by norm_num) (by norm_num)

/-- Helper: a command line closes the session iff it parses to `stop`. -/
theorem closeSession_iff (cmd : Cmd) (st : VehicleState) (o : LinkOracle) :
    (handleCommand cmd st o).closeSession = true ↔ cmd = Cmd.stop := by
  rcases o with ⟨a, t, l, g, c, u, s, cn⟩
  rcases st with ⟨f⟩
  cases cmd with
  | takeoff => cases a <;> cases t <;> simp [handleCommand]
  | mission =>
      cases f <;> cases g <;> cases c <;> cases u <;> cases s <;>
        simp [handleCommand, missionUploadStart]
  | land => cases l <;> simp [handleCommand]
  | status => cases cn <;> simp [handleCommand]
  | stop => simp [handleCommand]
  | unrecognized => simp [handleCommand]

/-- Helper: the literal line `"stop"` parses to the `stop` command. -/
theorem parseCmd_stop : parseCmd "stop" = Cmd.stop := by decide

/-- Helper: once the `stop` line is reached, the session loop emits
`OK stop\n` and processes nothing after it, whatever follows on the wire. -/
theorem runSession_stop (pre rest : List String) (o : Nat → LinkOracle)
    (st : VehicleState) (hpre : ∀ l ∈ pre, parseCmd l ≠ Cmd.stop) :
    ∃ earlier : List String,
      runSession st o (pre ++ "stop" :: rest) = earlier ++ ["OK stop\n"] ∧
      runSession st o (pre ++ ["stop"]) = earlier ++ ["OK stop\n"] := by
  induction pre generalizing st o with
  | nil =>
      refine ⟨[], ?_, ?_⟩ <;> simp [runSession, parseCmd_stop, handleCommand]
  | cons l pre ih =>
      have hl : parseCmd l ≠ Cmd.stop := hpre l (List.mem_cons_self l pre)
      have hclose : (handleCommand (parseCmd l) st (o 0)).closeSession = false := by
        rcases hb : (handleCommand (parseCmd l) st (o 0)).closeSession with _ | _
        · rfl
        · exact absurd ((closeSession_iff _ _ _).mp hb) hl
      obtain ⟨earlier, h1, h2⟩ :=
        ih (fun n => o (n + 1)) (handleCommand (parseCmd l) st (o 0)).state
          (fun l' hl' => hpre l' (List.mem_cons_of_mem l hl'))
      refine ⟨(handleCommand (parseCmd l) st (o 0)).replies ++ earlier, ?_, ?_⟩
      · simp only [List.cons_append, runSession, hclose, Bool.false_eq_true,
          if_false, List.append_assoc]
        exact congrArg _ h1
      · simp only [List.cons_append, runSession, hclose, Bool.false_eq_true,
          if_false, List.append_assoc]
        exact congrArg _ h2

/-- C7: a session whose lines are some non-`stop` commands followed by
`stop` receives the greeting, the replies to the earlier commands, then
exactly `OK stop\n` as its final line; everything after the `stop` line is
never processed (the server closes the connection), so the reply stream
equals that of the session truncated at `stop`. -/
theorem stop_closes_session (pre rest : List String) (o : Nat → LinkOracle)
    (st : VehicleState) (hpre : ∀ l ∈ pre, parseCmd l ≠ Cmd.stop) :
    ∃ earlier : List String,
      handle_client st o (pre ++ "stop" :: rest) =
        "OK connected to server\n" :: (earlier ++ ["OK stop\n"]) ∧
      handle_client st o (pre ++ "stop" :: rest) =
        handle_client st o (pre ++ ["stop"]) := by
  obtain ⟨earlier, h1, h2⟩ := runSession_stop pre rest o st hpre
  exact ⟨earlier, by simp [handle_client, h1], by simp [handle_client, h1, h2]⟩

/-- Witness for C7: a concrete session `status`, `stop`, `land`: the `land`
line after `stop` is never answered. -/
theorem stop_closes_session_witness :
    ∃ earlier : List String,
      handle_client ⟨false⟩ (fun _ => allOkOracle) (["status"] ++ "stop" :: ["land"]) =
        "OK connected to server\n" :: (earlier ++ ["OK stop\n"]) ∧
      handle_client ⟨false⟩ (fun _ => allOkOracle) (["status"] ++ "stop" :: ["land"]) =
        handle_client ⟨false⟩ (fun _ => allOkOracle) (["status"] ++ ["stop"]) :=
  stop_closes_session ["status"] ["land"] (fun _ => allOkOracle) ⟨false⟩ (by decide)

/-- C8: if the boot-time `wait_connected` times out, `main` logs the failure
and returns before `asyncio.start_server`, so the listening port is never
opened and no session is handled; a `wait_health_ok` timeout is non-fatal: it
is logged as a warning and the server still starts accepting connections. -/
theorem boot_conn_timeout_fatal_health_timeout_not
    (healthW : WaitOutcome (Option Unit)) (connVal : Bool) :
    mainBoot WaitOutcome.timeout healthW = ⟨true, false, false⟩ ∧
    mainBoot (WaitOutcome.resolved connVal) WaitOutcome.timeout = ⟨false, true, true⟩ := by
  constructor <;> rfl
